import Mathlib

/-
Verification of the request/reply machinery of the go-res service library,
embedded from src/request.go.

Conventions of the embedding:
* Reply payloads are byte strings, modelled as Lean `String`.
* `json.Marshal` of an application-supplied value (an external library over
  arbitrary Go values) is modelled at its boundary by the type `JVal`: a value
  either carries its exact JSON encoding (`JVal.lit`) or is a value the
  encoder rejects (`JVal.bad`, carrying the error text).
* `json.Unmarshal` of a raw payload is modelled at its boundary by
  `RawMessage`: bytes that unmarshal successfully into the target
  (`RawMessage.valid`) or bytes the decoder rejects (`RawMessage.malformed`).
  Go rejects a nil payload (`json.Unmarshal(nil, v)` fails with
  "unexpected end of JSON input"), so `none` always fails.
* The `Resource` embedding of `Request` (resource.go is not under src/) is
  flattened into the fields the request logic reads: the message subject and
  the query string.  Service effects are recorded in the state: `sent` is the
  ordered list of payloads published to the reply address via
  `Request.reply` (src/request.go:392), `timeoutsSent` the raw timeout
  control messages published via `s.rawEvent` (src/request.go:360), and
  `logs` the operator log lines written via `s.Logf`.  Trace output and
  publish transport failures are outside the properties treated here.
* A Go panic is modelled as a `some` value of `PanicVal` in the second
  component of each method result; `none` means normal return.
-/

namespace GoRes

/-- Boundary model of an application value handed to `json.Marshal`:
either its exact JSON encoding, or a value the encoder rejects
together with the error text. -/
inductive JVal where
  | lit (s : String)
  | bad (msg : String)
deriving DecidableEq, Repr

/-- Boundary model of a raw JSON payload handed to `json.Unmarshal`:
bytes the decoder accepts for the target, or bytes it rejects. -/
inductive RawMessage where
  | valid (bytes : String)
  | malformed (bytes : String)
deriving DecidableEq, Repr

/-- Modelled from the spec: the structured protocol error carried by `*Error`
(res.go is not under src/), wire shape `{"code": string, "message": string}`
per the spec reply-wire-payload table; an optional attached data payload
(absent in every predefined error) is what can make encoding the error
response itself fail, matching the failure branch at src/request.go:377. -/
structure Error where
  code : String
  message : String
  data : Option JVal := none
deriving DecidableEq, Repr

/-- Modelled from the spec: the predefined error code "system.invalidParams". -/
def CodeInvalidParams : String := "system.invalidParams"

/-- Modelled from the spec: the predefined error code "system.internalError". -/
def CodeInternalError : String := "system.internalError"

/-- A Go panic value as discriminated by the recover switch at
src/request.go:408: a structured `*Error`, an `error` value, a plain
string, or any other value (carrying its `fmt.Sprintf` rendering). -/
inductive PanicVal where
  | perr (e : Error)
  | goErr (msg : String)
  | str (s : String)
  | other (text : String)
deriving DecidableEq, Repr

/-- The request state (src/request.go:23), flattened as described above. -/
structure Request where
  rtype : String
  method : String
  subject : String
  query : String
  params : Option RawMessage := none
  token : Option RawMessage := none
  replied : Bool := false
  sent : List String := []
  timeoutsSent : List String := []
  logs : List String := []
deriving DecidableEq, Repr

/- Static responses (src/request.go:168). -/

def responseAccessDenied : String :=
  "\x7b\"error\":\x7b\"code\":\"system.accessDenied\",\"message\":\"Access denied\"\x7d\x7d"

def responseInternalError : String :=
  "\x7b\"error\":\x7b\"code\":\"system.internalError\",\"message\":\"Internal error\"\x7d\x7d"

def responseNotFound : String :=
  "\x7b\"error\":\x7b\"code\":\"system.notFound\",\"message\":\"Not found\"\x7d\x7d"

def responseMethodNotFound : String :=
  "\x7b\"error\":\x7b\"code\":\"system.methodNotFound\",\"message\":\"Method not found\"\x7d\x7d"

def responseInvalidParams : String :=
  "\x7b\"error\":\x7b\"code\":\"system.invalidParams\",\"message\":\"Invalid parameters\"\x7d\x7d"

def responseMissingResponse : String :=
  "\x7b\"error\":\x7b\"code\":\"system.internalError\",\"message\":\"Internal error: missing response\"\x7d\x7d"

def responseAccessGranted : String :=
  "\x7b\"result\":\x7b\"get\":true,\"call\":\"*\"\x7d\x7d"

/-- JSON encoding of one character of a Go string by encoding/json
(quote, backslash and the HTML-relevant characters are escaped). -/
def escapeChar (c : Char) : String :=
  if c = '\"' then "\\\""
  else if c = '\\' then "\\\\"
  else if c = '<' then "\\u003c"
  else if c = '>' then "\\u003e"
  else if c = '&' then "\\u0026"
  else String.singleton c

/-- JSON encoding of a Go string by encoding/json. -/
def jsonQuote (s : String) : String :=
  "\"" ++ String.join (s.data.map escapeChar) ++ "\""

/-- `json.Marshal(successResponse{Result: result})`: the wrapper
`{"result": ...}` (successResponse lives in res.go, shape fixed by the
spec reply-wire-payload table); marshaling fails exactly when marshaling
the application result fails. -/
def marshalSuccess : JVal → Except String String
  | .lit s => .ok ("\x7b\"result\":" ++ s ++ "\x7d")
  | .bad msg => .error msg

/-- `json.Marshal(errorResponse{Error: e})`: the wrapper `{"error": ...}`
around the spec error shape; fails exactly when the attached data payload
of the error is unencodable. -/
def marshalErrorResponse (e : Error) : Except String String :=
  match e.data with
  | none =>
    .ok ("\x7b\"error\":\x7b\"code\":" ++ jsonQuote e.code ++
      ",\"message\":" ++ jsonQuote e.message ++ "\x7d\x7d")
  | some (.lit s) =>
    .ok ("\x7b\"error\":\x7b\"code\":" ++ jsonQuote e.code ++
      ",\"message\":" ++ jsonQuote e.message ++ ",\"data\":" ++ s ++ "\x7d\x7d")
  | some (.bad msg) => .error msg

/-- Modelled from the spec: `ToError` (res.go is not under src/) wraps an
arbitrary cause into a structured internal error, per §7 of the spec
(an unexpected termination is "converted to a generic internal-error
reply"); the cause text is carried as the message. -/
def ToError (msg : String) : Error :=
  { code := CodeInternalError, message := msg }

/-- `json.Unmarshal(data, target)` at the boundary: a nil payload always
fails (with the Go error text); otherwise the `RawMessage` model decides.
The error text of the malformed case stands in for the encoding/json
error string. -/
def jsonUnmarshal : Option RawMessage → Except String Unit
  | none => .error "unexpected end of JSON input"
  | some (.valid _) => .ok ()
  | some (.malformed bytes) => .error ("invalid json: " ++ bytes)

/-- `okResponse{Get: get, Call: call}` (res.go), wire shape
`{"get": bool, "call": string}` per the spec access-success payload;
always encodable. -/
def okResponse (get : Bool) (call : String) : JVal :=
  .lit ("\x7b\"get\":" ++ (if get then "true" else "false") ++
    ",\"call\":" ++ jsonQuote call ++ "\x7d")

/-- `modelResponse{Model: model, Query: query}` (res.go), wire shape
`{"model": object, "query": string-or-omitted}` per the spec; encodable
exactly when the model value is. -/
def modelResponse (model : JVal) (query : String) : JVal :=
  match model with
  | .bad msg => .bad msg
  | .lit s =>
    .lit ("\x7b\"model\":" ++ s ++
      (if query = "" then "" else ",\"query\":" ++ jsonQuote query) ++ "\x7d")

/-- `collectionResponse{Collection: collection, Query: query}` (res.go),
wire shape `{"collection": array, "query": string-or-omitted}` per the
spec; encodable exactly when the collection value is. -/
def collectionResponse (collection : JVal) (query : String) : JVal :=
  match collection with
  | .bad msg => .bad msg
  | .lit s =>
    .lit ("\x7b\"collection\":" ++ s ++
      (if query = "" then "" else ",\"query\":" ++ jsonQuote query) ++ "\x7d")

/-- `Request.reply` (src/request.go:386): panics if a reply was already
sent, otherwise sets the replied flag and publishes the payload to the
reply address. -/
def Request.reply (r : Request) (payload : String) : Request × Option PanicVal :=
  if r.replied then (r, some (.str "res: response already sent on request"))
  else ({ r with replied := true, sent := r.sent ++ [payload] }, none)

/-- The bytes `Request.error` ends up publishing for a given error:
the marshaled error response, or the static internal-error bytes when
marshaling the error response fails (src/request.go:376). -/
def errorWire (e : Error) : String :=
  match marshalErrorResponse e with
  | .ok data => data
  | .error _ => responseInternalError

/-- `Request.error` (src/request.go:375): marshals the error response,
falls back to the static internal-error bytes on a marshal failure,
and replies. -/
def Request.error (r : Request) (e : Error) : Request × Option PanicVal :=
  r.reply (errorWire e)

/-- `Request.success` (src/request.go:364): marshals the success response;
on a marshal failure sends `ToError` of the marshal error instead. -/
def Request.success (r : Request) (result : JVal) : Request × Option PanicVal :=
  match marshalSuccess result with
  | .error msg => r.error (ToError msg)
  | .ok data => r.reply data

/-- `Request.OK` (src/request.go:222). -/
def Request.OK (r : Request) (result : JVal) : Request × Option PanicVal :=
  r.success result

/-- `Request.NotFound` (src/request.go:232). -/
def Request.NotFound (r : Request) : Request × Option PanicVal :=
  r.reply responseNotFound

/-- `Request.MethodNotFound` (src/request.go:237). -/
def Request.MethodNotFound (r : Request) : Request × Option PanicVal :=
  r.reply responseMethodNotFound

/-- `Request.InvalidParams` (src/request.go:244). -/
def Request.InvalidParams (r : Request) (message : String) : Request × Option PanicVal :=
  if message = "" then r.reply responseInvalidParams
  else r.error { code := CodeInvalidParams, message := message }

/-- `Request.Access` (src/request.go:258): denial is normalized to the
static access-denied bytes, anything else marshals an `okResponse`. -/
def Request.Access (r : Request) (get : Bool) (call : String) : Request × Option PanicVal :=
  if get = false ∧ call = "" then r.reply responseAccessDenied
  else r.success (okResponse get call)

/-- `Request.AccessDenied` (src/request.go:268). -/
def Request.AccessDenied (r : Request) : Request × Option PanicVal :=
  r.reply responseAccessDenied

/-- `Request.AccessGranted` (src/request.go:275). -/
def Request.AccessGranted (r : Request) : Request × Option PanicVal :=
  r.reply responseAccessGranted

/-- `Request.model` (src/request.go:294): a query response on a request
that carried no query is a programming-error panic, before anything is
published. -/
def Request.model (r : Request) (model : JVal) (query : String) : Request × Option PanicVal :=
  if query ≠ "" ∧ r.query = "" then
    (r, some (.str "res: query model response on non-query request"))
  else r.success (modelResponse model query)

/-- `Request.Model` (src/request.go:282). -/
def Request.Model (r : Request) (model : JVal) : Request × Option PanicVal :=
  r.model model ""

/-- `Request.QueryModel` (src/request.go:289). -/
def Request.QueryModel (r : Request) (model : JVal) (query : String) : Request × Option PanicVal :=
  r.model model query

/-- `Request.collection` (src/request.go:317): same query guard as for
models. -/
def Request.collection (r : Request) (collection : JVal) (query : String) :
    Request × Option PanicVal :=
  if query ≠ "" ∧ r.query = "" then
    (r, some (.str "res: query collection response on non-query request"))
  else r.success (collectionResponse collection query)

/-- `Request.Collection` (src/request.go:305). -/
def Request.Collection (r : Request) (collection : JVal) : Request × Option PanicVal :=
  r.collection collection ""

/-- `Request.QueryCollection` (src/request.go:312). -/
def Request.QueryCollection (r : Request) (collection : JVal) (query : String) :
    Request × Option PanicVal :=
  r.collection collection query

/-- `Request.ParseParams` (src/request.go:333): unmarshals the params
payload, panics with a system.invalidParams `*Error` on any decode error.
There is no nil check, so a nil payload reaches the decoder. -/
def Request.ParseParams (r : Request) : Request × Option PanicVal :=
  match jsonUnmarshal r.params with
  | .ok _ => (r, none)
  | .error msg => (r, some (.perr { code := CodeInvalidParams, message := msg }))

/-- `Request.ParseToken` (src/request.go:343), exactly as the body is
written: it checks and unmarshals the PARAMS payload (not the token),
and panics with a system.invalidParams `*Error` on a decode error,
contradicting its own doc comment at src/request.go:340. -/
def Request.ParseToken (r : Request) : Request × Option PanicVal :=
  if r.params = none then (r, none)
  else
    match jsonUnmarshal r.params with
    | .ok _ => (r, none)
    | .error msg => (r, some (.perr { code := CodeInvalidParams, message := msg }))

/-- `Request.Timeout` (src/request.go:355): `d` is the duration in
nanoseconds (Go `time.Duration`); a negative duration panics before
anything is published, otherwise the raw control message
`timeout:"<milliseconds>"` is published without touching the replied
flag. Go integer division truncates, which for a nonnegative duration
agrees with Nat division. -/
def Request.Timeout (r : Request) (d : Int) : Request × Option PanicVal :=
  if d < 0 then (r, some (.str "res: negative timeout duration"))
  else
    ({ r with timeoutsSent :=
        r.timeoutsSent ++ ["timeout:\"" ++ toString (d.toNat / 1000000) ++ "\""] }, none)

/-- An application handler, interacting with the request through its
methods: it transforms the request state and either returns normally
(`none`) or panics with a value. -/
abbrev Handler := Request → Request × Option PanicVal

/-- The resource kinds of a handler set (`rtypeUnset`, `rtypeModel`,
`rtypeCollection`; res.go, referenced at src/request.go:448). -/
inductive RKind where
  | unset
  | model
  | collection
deriving DecidableEq, Repr

/-- Modelled from the spec: the `HandlerSet` a request resolves to
(res.go is not under src/): declared kind, optional access handler,
kind-specific get handlers, the method-to-handler call map, an optional
"new" handler and the auth map, exactly the slots dispatched on at
src/request.go:437. The maps are association lists; lookup of an
absent method yields the Go nil zero value, modelled as `none`. -/
structure HandlerSet where
  typ : RKind := .unset
  access : Option Handler := none
  getModel : Option Handler := none
  getCollection : Option Handler := none
  call : List (String × Handler) := []
  new : Option Handler := none
  auth : List (String × Handler) := []

/-- Outcome of the dispatch switch of `executeHandler`
(src/request.go:439): control either proceeds normally — with
`fellThrough = true` exactly when a handler was invoked and returned,
so that the final missing-response check runs, and `false` on the early
`return` paths that skip it — or a panic unwinds to the deferred
recover. -/
inductive HRun where
  | norm (s : Request) (fellThrough : Bool)
  | panicked (s : Request) (v : PanicVal)
deriving DecidableEq, Repr

/-- Runs an application handler and classifies its outcome. -/
def runHandler (h : Handler) (r : Request) : HRun :=
  match h r with
  | (s, none) => .norm s true
  | (s, some v) => .panicked s v

/-- A `r.reply(...)` followed by an early `return` inside the dispatch
switch (the not-found and method-not-found branches). -/
def earlyReply (r : Request) (payload : String) : HRun :=
  match r.reply payload with
  | (s, none) => .norm s false
  | (s, some v) => .panicked s v

/-- The Go runtime panic raised by calling a nil handler function
(a `get` dispatch whose kind-specific handler slot is unset). -/
def nilDeref : PanicVal :=
  .goErr "runtime error: invalid memory address or nil pointer dereference"

/-- The dispatch switch of `executeHandler` (src/request.go:439),
selecting and running the handler for the request type and method.
The unknown-type default logs and returns without replying
(the exact Go log rendering of the method value is immaterial here). -/
def dispatch (hs : HandlerSet) (r : Request) : HRun :=
  if r.rtype = "access" then
    match hs.access with
    | none => .norm r false
    | some h => runHandler h r
  else if r.rtype = "get" then
    match hs.typ with
    | .unset => earlyReply r responseNotFound
    | .model =>
      match hs.getModel with
      | none => .panicked r nilDeref
      | some h => runHandler h r
    | .collection =>
      match hs.getCollection with
      | none => .panicked r nilDeref
      | some h => runHandler h r
  else if r.rtype = "call" then
    if r.method = "new" then
      match hs.new with
      | none => earlyReply r responseMethodNotFound
      | some h => runHandler h r
    else
      match hs.call.lookup r.method with
      | none => earlyReply r responseMethodNotFound
      | some h => runHandler h r
  else if r.rtype = "auth" then
    match hs.auth.lookup r.method with
    | none => earlyReply r responseMethodNotFound
    | some h => runHandler h r
  else
    .norm { r with logs := r.logs ++ ["unknown request type: " ++ r.rtype] } false

/-- The `str` variable computed by the recover switch
(src/request.go:406): the textual cause of the panic. -/
def causeText : PanicVal → String
  | .perr e => e.message
  | .goErr msg => msg
  | .str s => s
  | .other text => text

/-- Whether the panic value is a structured `*Error`
(the first case of the recover switch). -/
def isProtocolError : PanicVal → Bool
  | .perr _ => true
  | _ => false

/-- The operator log line written by the recover block
(src/request.go:434). -/
def recoverLog (subject cause : String) : String :=
  "error handling request " ++ subject ++ ": " ++ cause

/-- The deferred recover block of `executeHandler` (src/request.go:400):
a `*Error` panic on an unreplied request is sent as that error reply and
not logged; every other case logs the cause, sending a generic internal
error first when the request is still unreplied. -/
def recoverHandle (s : Request) (v : PanicVal) : Request :=
  match v with
  | .perr e =>
    if s.replied = false then (s.error e).1
    else { s with logs := s.logs ++ [recoverLog s.subject e.message] }
  | _ =>
    let s1 := if s.replied = false then (s.error (ToError (causeText v))).1 else s
    { s1 with logs := s1.logs ++ [recoverLog s.subject (causeText v)] }

/-- `Request.executeHandler` (src/request.go:398): dispatch, the deferred
recover for panics, and the missing-response fallback when control falls
out of the switch with no reply sent. The function is total and returns
a plain request state: no panic value escapes it. -/
def Request.executeHandler (hs : HandlerSet) (r : Request) : Request :=
  match dispatch hs r with
  | .norm s true => if s.replied then s else (s.reply responseMissingResponse).1
  | .norm s false => s
  | .panicked s v => recoverHandle s v

/- Concrete fixtures used by the witness theorems. -/

/-- A plain call request, not yet replied. -/
def reqCall : Request :=
  { rtype := "call", method := "m", subject := "call.test.m", query := "" }

/-- A plain get request without a query. -/
def reqGet : Request :=
  { rtype := "get", method := "", subject := "get.test", query := "" }

/-- A plain access request. -/
def reqAccess : Request :=
  { rtype := "access", method := "", subject := "access.test", query := "" }

/-- An auth request carrying only a (malformed) token and no params. -/
def reqTokenOnly : Request :=
  { rtype := "auth", method := "login", subject := "auth.test.login", query := "",
    params := none, token := some (.malformed "xyz") }

/-- An auth request carrying only malformed params and no token. -/
def reqParamsOnly : Request :=
  { rtype := "auth", method := "login", subject := "auth.test.login", query := "",
    params := some (.malformed "xyz"), token := none }

/-- A structured application error. -/
def errBoom : Error := { code := "test.err", message := "boom" }

/-- An error whose attached data payload cannot be encoded. -/
def errBad : Error := { code := "x", message := "y", data := some (JVal.bad "nope") }

/-- A handler that panics with a structured error. -/
def handlerPanicErr : Handler := fun s => (s, some (.perr errBoom))

/-- A handler that panics with a plain string. -/
def handlerPanicStr : Handler := fun s => (s, some (.str "bad day"))

/-- A handler that returns without doing anything. -/
def handlerNoop : Handler := fun s => (s, none)

/-- A handler set whose call method "m" panics with a structured error. -/
def hsPanic : HandlerSet := { call := [("m", handlerPanicErr)] }

/-- A handler set whose call method "m" panics with a string. -/
def hsPanicStr : HandlerSet := { call := [("m", handlerPanicStr)] }

/-- A handler set whose call method "m" returns without replying. -/
def hsNoop : HandlerSet := { call := [("m", handlerNoop)] }

/-- The empty handler set: unset kind and no handlers at all. -/
def hsEmpty : HandlerSet := {}

/-- C1: Reply-once. On an unreplied request the first `reply` transmits the
payload, sets the replied flag atomically with that transmission and does
not panic; a second `reply` attempt on the resulting request panics and
leaves the published payloads unchanged, so at most one reply transmission
succeeds per request (src/request.go:386). -/
theorem reply_once (r : Request) (p q : String) (h : r.replied = false) :
    (r.reply p).2 = none ∧
    (r.reply p).1.replied = true ∧
    (r.reply p).1.sent = r.sent ++ [p] ∧
    (r.reply p).1.reply q =
      ((r.reply p).1, some (PanicVal.str "res: response already sent on request")) := by
  simp [Request.reply, h]

/-- Witness for C1 at a concrete request and payloads. -/
theorem reply_once_witness :
    (reqCall.reply "x").2 = none ∧
    (reqCall.reply "x").1.replied = true ∧
    (reqCall.reply "x").1.sent = reqCall.sent ++ ["x"] ∧
    (reqCall.reply "x").1.reply "y" =
      ((reqCall.reply "x").1, some (PanicVal.str "res: response already sent on request")) :=
  reply_once reqCall "x" "y" rfl

/-- C2: Panic recovery containment. When the dispatch of a request ends in
a handler panic while the request is still unreplied, `executeHandler`
intercepts it (its result is exactly the recover block applied to the
panic, so no panic value propagates out): a structured `*Error` panic is
forwarded to the client as that error reply with no operator log line
added, and any other panic value is converted to a generic internal-error
reply and a log line carrying the subject and the cause is added
(src/request.go:398). -/
theorem executeHandler_recovers (hs : HandlerSet) (r s : Request) (v : PanicVal)
    (hd : dispatch hs r = .panicked s v) (hrep : s.replied = false) :
    Request.executeHandler hs r = recoverHandle s v ∧
    (∀ e : Error, v = .perr e →
      Request.executeHandler hs r =
        { s with replied := true, sent := s.sent ++ [errorWire e] }) ∧
    (isProtocolError v = false →
      Request.executeHandler hs r =
        { s with replied := true,
                 sent := s.sent ++ [errorWire (ToError (causeText v))],
                 logs := s.logs ++ [recoverLog s.subject (causeText v)] }) := by
  refine ⟨?_, ?_, ?_⟩
  · simp [Request.executeHandler, hd]
  · rintro e rfl
    simp [Request.executeHandler, hd, recoverHandle, hrep, Request.error, Request.reply]
  · intro hnp
    cases v with
    | perr e => simp [isProtocolError] at hnp
    | goErr m =>
      simp [Request.executeHandler, hd, recoverHandle, hrep, Request.error,
        Request.reply, causeText]
    | str t =>
      simp [Request.executeHandler, hd, recoverHandle, hrep, Request.error,
        Request.reply, causeText]
    | other t =>
      simp [Request.executeHandler, hd, recoverHandle, hrep, Request.error,
        Request.reply, causeText]

/-- Witness for C2: a call handler panicking with a structured error is
forwarded without logging; one panicking with a string yields the generic
internal error plus a log line. -/
theorem executeHandler_recovers_witness :
    Request.executeHandler hsPanic reqCall =
      { reqCall with replied := true, sent := reqCall.sent ++ [errorWire errBoom] } ∧
    Request.executeHandler hsPanicStr reqCall =
      { reqCall with
          replied := true,
          sent := reqCall.sent ++ [errorWire (ToError (causeText (PanicVal.str "bad day")))],
          logs := reqCall.logs ++
            [recoverLog reqCall.subject (causeText (PanicVal.str "bad day"))] } :=
  ⟨(executeHandler_recovers hsPanic reqCall reqCall (.perr errBoom) rfl rfl).2.1 errBoom rfl,
    (executeHandler_recovers hsPanicStr reqCall reqCall (.str "bad day") rfl rfl).2.2 rfl⟩

/-- C3: Missing-response fallback. When the dispatch of a request runs a
handler that returns normally (control falls out of the switch) with the
request still unreplied, `executeHandler` sends exactly the fixed
missing-response bytes, stated verbatim in the second conjunct
(src/request.go:490 and src/request.go:174). -/
theorem executeHandler_missing_response (hs : HandlerSet) (r s : Request)
    (hd : dispatch hs r = .norm s true) (hrep : s.replied = false) :
    Request.executeHandler hs r =
      { s with replied := true, sent := s.sent ++ [responseMissingResponse] } ∧
    responseMissingResponse =
      "\x7b\"error\":\x7b\"code\":\"system.internalError\",\"message\":\"Internal error: missing response\"\x7d\x7d" := by
  refine ⟨?_, rfl⟩
  simp [Request.executeHandler, hd, hrep, Request.reply]

/-- Witness for C3: a call handler that returns without replying. -/
theorem executeHandler_missing_response_witness :
    Request.executeHandler hsNoop reqCall =
      { reqCall with
          replied := true,
          sent := reqCall.sent ++ [responseMissingResponse] } :=
  (executeHandler_missing_response hsNoop reqCall reqCall rfl rfl).1

/-- C4: the body of `ParseToken` as written (src/request.go:343) reads the
PARAMS payload, not the token: on a request carrying only a malformed
token it does nothing, and on a request carrying malformed params it
panics with a system.invalidParams error — contradicting both the claim
and the doc comment of the function itself (src/request.go:340), which
promise token decoding and a system.internalError on failure. -/
theorem parseToken_reads_params :
    reqTokenOnly.ParseToken = (reqTokenOnly, none) ∧
    reqParamsOnly.ParseToken =
      (reqParamsOnly,
        some (PanicVal.perr
          { code := "system.invalidParams", message := "invalid json: xyz" })) := by
  decide

/-- C5: Access normalization. On any request, `Access(false, "")` produces
output byte-identical to `AccessDenied()`, and `Access(true, "*")`
produces output byte-identical to `AccessGranted()`
(src/request.go:258 and src/request.go:168). -/
theorem access_normalization (r : Request) :
    r.Access false "" = r.AccessDenied ∧ r.Access true "*" = r.AccessGranted := by
  constructor
  · simp [Request.Access, Request.AccessDenied]
  · simp [Request.Access, Request.AccessGranted, Request.success]
    rfl

/-- C6 counterexample: a `QueryModel` reply whose query argument is empty,
on a request whose query string is empty, does NOT fault: it publishes a
plain model reply, refuting the claim that every QueryModel call on a
query-less request panics and publishes nothing. -/
theorem queryModel_empty_query_published :
    (reqGet.QueryModel (JVal.lit "\x7b\x7d") "").2 = none ∧
    (reqGet.QueryModel (JVal.lit "\x7b\x7d") "").1.sent =
      ["\x7b\"result\":\x7b\"model\":\x7b\x7d\x7d\x7d"] := by
  decide

/-- C6 (amended): a query-flavored reply that actually carries a non-empty
query, issued on a request whose own query string is empty, always panics,
whatever the payload, and nothing is published by it — the request state
is returned unchanged (src/request.go:294 and src/request.go:317). -/
theorem query_guard (r : Request) (m c : JVal) (q : String)
    (hq : q ≠ "") (hr : r.query = "") :
    r.QueryModel m q =
      (r, some (PanicVal.str "res: query model response on non-query request")) ∧
    r.QueryCollection c q =
      (r, some (PanicVal.str "res: query collection response on non-query request")) := by
  constructor
  · simp [Request.QueryModel, Request.model, hq, hr]
  · simp [Request.QueryCollection, Request.collection, hq, hr]

/-- Witness for the amended C6 at a concrete request and query. -/
theorem query_guard_witness :
    reqGet.QueryModel (JVal.lit "\x7b\x7d") "a=1" =
      (reqGet, some (PanicVal.str "res: query model response on non-query request")) ∧
    reqGet.QueryCollection (JVal.lit "[]") "a=1" =
      (reqGet, some (PanicVal.str "res: query collection response on non-query request")) :=
  query_guard reqGet (JVal.lit "\x7b\x7d") (JVal.lit "[]") "a=1" (by decide) rfl

/-- C7: an access request against a handler set with no access handler
completes with the request state completely unchanged — no reply at all,
in particular no missing-response fallback — while a get request against
an Unset-kind handler set receives exactly the system.notFound error
reply (src/request.go:441 and src/request.go:449). -/
theorem unhandled_access_get (hs : HandlerSet) (r : Request) :
    (r.rtype = "access" → hs.access = none → Request.executeHandler hs r = r) ∧
    (r.rtype = "get" → hs.typ = .unset → r.replied = false →
      Request.executeHandler hs r =
        { r with replied := true, sent := r.sent ++ [responseNotFound] }) := by
  constructor
  · intro h1 h2
    simp [Request.executeHandler, dispatch, h1, h2]
  · intro h1 h2 h3
    simp [Request.executeHandler, dispatch, h1, h2, earlyReply, Request.reply, h3]

/-- Witness for C7 on the empty handler set. -/
theorem unhandled_access_get_witness :
    Request.executeHandler hsEmpty reqAccess = reqAccess ∧
    Request.executeHandler hsEmpty reqGet =
      { reqGet with replied := true, sent := reqGet.sent ++ [responseNotFound] } :=
  ⟨(unhandled_access_get hsEmpty reqAccess).1 rfl rfl,
    (unhandled_access_get hsEmpty reqGet).2 rfl rfl rfl⟩

/-- C8: `Timeout` with a negative duration panics with the request state
returned unchanged — nothing published, replied flag and prior control
messages untouched; with a non-negative duration it publishes exactly the
`timeout:"<ms>"` control message, leaving the replied flag and the reply
payloads unchanged (src/request.go:355). -/
theorem timeout_guard (r : Request) (d : Int) :
    (d < 0 → r.Timeout d = (r, some (PanicVal.str "res: negative timeout duration"))) ∧
    (0 ≤ d →
      r.Timeout d =
        ({ r with timeoutsSent :=
            r.timeoutsSent ++ ["timeout:\"" ++ toString (d.toNat / 1000000) ++ "\""] },
          none) ∧
      (r.Timeout d).1.replied = r.replied ∧ (r.Timeout d).1.sent = r.sent) := by
  constructor
  · intro h
    simp [Request.Timeout, h]
  · intro h
    simp [Request.Timeout, not_lt.mpr h]

/-- Witness for C8 at a negative and a 5ms duration. -/
theorem timeout_guard_witness :
    reqCall.Timeout (-5) = (reqCall, some (PanicVal.str "res: negative timeout duration")) ∧
    reqCall.Timeout 5000000 =
      ({ reqCall with timeoutsSent := reqCall.timeoutsSent ++ ["timeout:\"5\""] }, none) :=
  ⟨(timeout_guard reqCall (-5)).1 (by decide),
    ((timeout_guard reqCall 5000000).2 (by decide)).1⟩

/-- C9: Reply-path totality under encoding failure. On an unreplied
request, `success` always transmits exactly one payload and never panics,
whatever the result value; when marshaling the success payload fails, the
payload transmitted is the error reply derived from the marshal error;
`error` always transmits its marshaled error response; and when marshaling
an error response itself fails, the bytes transmitted are the static
internal-error response (src/request.go:363 and src/request.go:374). -/
theorem reply_paths_total (r : Request) (h : r.replied = false) :
    (∀ v : JVal, (r.success v).2 = none ∧ (r.success v).1.replied = true ∧
      (r.success v).1.sent.length = r.sent.length + 1) ∧
    (∀ msg : String,
      r.success (JVal.bad msg) =
        ({ r with replied := true, sent := r.sent ++ [errorWire (ToError msg)] }, none)) ∧
    (∀ e : Error,
      r.error e = ({ r with replied := true, sent := r.sent ++ [errorWire e] }, none)) ∧
    (∀ e : Error, ∀ msg : String,
      marshalErrorResponse e = Except.error msg → errorWire e = responseInternalError) := by
  refine ⟨?_, ?_, ?_, ?_⟩
  · intro v
    cases v with
    | lit s => simp [Request.success, marshalSuccess, Request.reply, h]
    | bad m => simp [Request.success, marshalSuccess, Request.error, Request.reply, h]
  · intro msg
    simp [Request.success, marshalSuccess, Request.error, Request.reply, h]
  · intro e
    simp [Request.error, Request.reply, h]
  · intro e msg hm
    simp [errorWire, hm]

/-- Witness for C9: a failing success marshal transmits the derived error
reply, and an unencodable error response falls back to the static
internal-error bytes. -/
theorem reply_paths_total_witness :
    (reqGet.success (JVal.bad "no")).2 = none ∧
    reqGet.success (JVal.bad "no") =
      ({ reqGet with replied := true, sent := reqGet.sent ++ [errorWire (ToError "no")] },
        none) ∧
    errorWire errBad = responseInternalError :=
  ⟨((reply_paths_total reqGet rfl).1 (JVal.bad "no")).1,
    (reply_paths_total reqGet rfl).2.1 "no",
    (reply_paths_total reqGet rfl).2.2.2 errBad "nope" rfl⟩

/-- C10: `ParseParams` on a request whose raw params payload is nil panics
with a system.invalidParams structured error (the decoder rejects a nil
payload), rather than doing nothing (src/request.go:333). -/
theorem parseParams_nil_panics (r : Request) (h : r.params = none) :
    r.ParseParams =
      (r, some (PanicVal.perr
        { code := CodeInvalidParams, message := "unexpected end of JSON input" })) := by
  simp [Request.ParseParams, jsonUnmarshal, h]

/-- Witness for C10 at a concrete request with no params. -/
theorem parseParams_nil_panics_witness :
    reqCall.ParseParams =
      (reqCall, some (PanicVal.perr
        { code := CodeInvalidParams, message := "unexpected end of JSON input" })) :=
  parseParams_nil_panics reqCall rfl

end GoRes
